import Mathlib

/-!
# ps3vram: PS3 video RAM as an MTD device

Shallow embedding of `src/linux/ps3vram/ps3vram.c`.

* Memory reached through `priv->base` is a map from byte positions (relative
  to `priv->base`, so position `p` is the byte at address `priv->base + p`) to
  bytes.  The usable window is the positions `0 ≤ p < mtd->size`; the
  positions just below `0` are the skipped frame-buffer prefix of the same
  mapping.
  Positions outside the mapping stand for whatever lies at those addresses:
  an access there is an ordinary access of the model, where the machine would
  fault or hit unrelated memory.  Positions are exact integers, pointer
  arithmetic does not wrap.
* Caller buffers (`buf`) are maps from an index to a byte and are disjoint
  from the video memory.
* `memcpy`, `memset` and the calls into the kernel are recorded in a trace, in
  program order, so that what a function touched and in which order it called
  its collaborators can be stated.
* The integer types of `mtd_info.size`, `erase_info.addr` and `erase_info.len`
  come from `<linux/mtd/mtd.h>`, which is not part of the repository: they are
  `u_int32_t` in the kernels the driver was written for and `uint64_t` from
  2.6.30 on.  The embedding takes that choice as the parameter `MtdAbi`.
  `loff_t` is a signed and `size_t` an unsigned 64-bit integer (the PS3 is a
  64-bit PowerPC).
-/

namespace Ps3vram

/-! ## Data model -/

/-- One byte of memory (`u_char`, `uint8_t`). -/
abbrev Byte := Fin 256

/-- Memory seen through `priv->base`: `mem p` is the byte at `priv->base + p`. -/
abbrev Mem := Int → Byte

/-- A caller buffer: `buf i` is `buf[i]`. -/
abbrev Buf := Nat → Byte

/-- The unsigned integer type of `mtd->size`, `instr->addr` and `instr->len`. -/
inductive MtdAbi where
  | u32
  | u64
  deriving DecidableEq, Repr

/-- Number of values of the unsigned type: arithmetic in it is modulo this. -/
def MtdAbi.modulus : MtdAbi → Nat
  | .u32 => 2 ^ 32
  | .u64 => 2 ^ 64

/-- Number of values of `size_t` and of `uint64_t`. -/
def SIZE_MOD : Nat := 2 ^ 64

/-- Smallest value of `loff_t`. -/
def LOFF_MIN : Int := -(2 ^ 63)

/-- Largest value of `loff_t`. -/
def LOFF_MAX : Int := 2 ^ 63 - 1

def EIO : Int := 5
def EAGAIN : Int := 11
def ENOMEM : Int := 12
def EINVAL : Int := 22

/-- Value of `MTD_ERASE_DONE` in `<linux/mtd/mtd.h>`. -/
def MTD_ERASE_DONE : Nat := 0x08

/-- The fields of `struct erase_info` the driver uses. -/
structure EraseInfo where
  addr : Nat
  len : Nat
  state : Nat
  deriving DecidableEq, Repr

/-- Memory operations and kernel calls made by the accessors, as recorded in
the trace.  Positions are relative to `priv->base`. -/
inductive Ev where
  /-- The call `memset(priv->base + dst, c, n)`. -/
  | memset (dst : Int) (c : Byte) (n : Nat)
  /-- The call `memcpy(buf, priv->base + src, n)`. -/
  | memcpy_from_vram (src : Int) (n : Nat)
  /-- The call `memcpy(priv->base + dst, buf, n)`. -/
  | memcpy_to_vram (dst : Int) (n : Nat)
  /-- The call `mtd_erase_callback(instr)`, with `instr` as it is at the call. -/
  | mtd_erase_callback (instr : EraseInfo)
  deriving DecidableEq, Repr

/-- The event reads or writes the byte at position `p` of the video memory. -/
def Ev.touches : Ev → Int → Prop
  | .memset dst _ n, p => dst ≤ p ∧ p < dst + n
  | .memcpy_from_vram src n, p => src ≤ p ∧ p < src + n
  | .memcpy_to_vram dst n, p => dst ≤ p ∧ p < dst + n
  | .mtd_erase_callback _, _ => False

instance (e : Ev) (p : Int) : Decidable (e.touches p) := by
  cases e <;> unfold Ev.touches <;> infer_instance

/-- Video memory after `memset(priv->base + dst, c, n)`. -/
def memset (mem : Mem) (dst : Int) (c : Byte) (n : Nat) : Mem :=
  fun p => if dst ≤ p ∧ p < dst + n then c else mem p

/-- Caller buffer after `memcpy(buf, priv->base + src, n)`. -/
def memcpy_from_vram (buf : Buf) (mem : Mem) (src : Int) (n : Nat) : Buf :=
  fun i => if i < n then mem (src + i) else buf i

/-- Video memory after `memcpy(priv->base + dst, buf, n)`. -/
def memcpy_to_vram (mem : Mem) (dst : Int) (buf : Buf) (n : Nat) : Mem :=
  fun p => if dst ≤ p ∧ p < dst + n then buf (p - dst).toNat else mem p

/-! ## Accessors -/

/-- Outcome of `ps3vram_erase`: return value, `*instr` and video memory
afterwards, and the trace of the call. -/
structure EraseResult where
  ret : Int
  instr : EraseInfo
  mem : Mem
  trace : List Ev

/-- Outcome of `ps3vram_read` and `ps3vram_write`: return value, the value
stored to `*retlen` (`none` when nothing is stored), caller buffer and video
memory afterwards, and the trace of the call. -/
structure IoResult where
  ret : Int
  retlen : Option Nat
  buf : Buf
  mem : Mem
  trace : List Ev

/-- Embedding of `ps3vram_erase`.  `instr->addr + instr->len` is computed in
the unsigned type of the two fields, hence modulo `abi.modulus`. -/
def ps3vram_erase (abi : MtdAbi) (size : Nat) (mem : Mem) (instr : EraseInfo) :
    EraseResult :=
  if (instr.addr + instr.len) % abi.modulus > size then
    { ret := -EINVAL, instr := instr, mem := mem, trace := [] }
  else
    let done : EraseInfo := { instr with state := MTD_ERASE_DONE }
    { ret := 0
      instr := done
      mem := memset mem instr.addr 0xFF instr.len
      trace := [Ev.memset instr.addr 0xFF instr.len, Ev.mtd_erase_callback done] }

/-- The test `offset >= mtd->size` of `ps3vram_read` and `ps3vram_write`, for
an offset of type `loff_t`.  Against a `u_int32_t` size both sides are
converted to `long long` and compared as signed numbers; against a `uint64_t`
size the offset is converted to `uint64_t`. -/
def offset_ge_size (abi : MtdAbi) (size : Nat) (ofs : Int) : Bool :=
  match abi with
  | .u32 => decide ((size : Int) ≤ ofs)
  | .u64 => decide ((size : Int) ≤ ofs % (SIZE_MOD : Int))

/-- The value of `mtd->size - offset` as it is compared with and assigned to
the `size_t` variable `len`: the difference converted to 64-bit unsigned. -/
def size_minus_offset (size : Nat) (ofs : Int) : Nat :=
  (((size : Int) - ofs) % (SIZE_MOD : Int)).toNat

/-- The statement `if (len > mtd->size - offset) len = mtd->size - offset;`. -/
def clamp_len (size : Nat) (ofs : Int) (len : Nat) : Nat :=
  if len > size_minus_offset size ofs then size_minus_offset size ofs else len

/-- Embedding of `ps3vram_read`; `from_` is the parameter `from`. -/
def ps3vram_read (abi : MtdAbi) (size : Nat) (mem : Mem) (from_ : Int) (len : Nat)
    (buf : Buf) : IoResult :=
  if offset_ge_size abi size from_ then
    { ret := -EINVAL, retlen := none, buf := buf, mem := mem, trace := [] }
  else
    let len := clamp_len size from_ len
    { ret := 0
      retlen := some len
      buf := memcpy_from_vram buf mem from_ len
      mem := mem
      trace := [Ev.memcpy_from_vram from_ len] }

/-- Embedding of `ps3vram_write`; `to_` is the parameter `to`. -/
def ps3vram_write (abi : MtdAbi) (size : Nat) (mem : Mem) (to_ : Int) (len : Nat)
    (buf : Buf) : IoResult :=
  if offset_ge_size abi size to_ then
    { ret := -EINVAL, retlen := none, buf := buf, mem := mem, trace := [] }
  else
    let len := clamp_len size to_ len
    { ret := 0
      retlen := some len
      buf := buf
      mem := memcpy_to_vram mem to_ buf len
      trace := [Ev.memcpy_to_vram to_ len] }

/-- The bytes a read handed back: the first `retlen` bytes of the buffer. -/
def IoResult.bytes (r : IoResult) : List Byte :=
  (List.range (r.retlen.getD 0)).map r.buf

/-- A buffer holding `data` (bytes after its end are zero). -/
def bufOfList (data : List Byte) : Buf :=
  fun i => data.getD i 0

/-- Every position touched by an event of the trace lies in `[0, size)`. -/
def traceInWindow (size : Nat) (tr : List Ev) : Prop :=
  ∀ e ∈ tr, ∀ p : Int, e.touches p → 0 ≤ p ∧ p < size

/-! ## Initialisation -/

/-- Size of the requested video memory, `ddr_size = 0x0fc00000` (252 MB). -/
def DDR_SIZE : Nat := 0x0fc00000

/-- The macro `SKIP_SIZE`, `((1920*1080*4)*2)`. -/
def SKIP_SIZE : Nat := (1920 * 1080 * 4) * 2

/-- The object `ps3vram_mtd.priv` points to (`struct ps3vram_priv`).
Addresses are natural numbers, `0` is `NULL`; pointer arithmetic stays inside
the mapped object and is exact. -/
structure Priv where
  memory_handle : Nat
  base : Nat
  real_base : Nat
  deriving DecidableEq, Repr

/-- The fields of the global `ps3vram_mtd` the claims are about.  `accessors`
says that `erase`, `read` and `write` are bound to the three functions above
and `point`, `unpoint` to `NULL`.  The remaining descriptor fields (`flags`,
`owner`, `type`, `erasesize`, `writesize`) receive constants of the kernel
headers and are left out. -/
structure MtdInfo where
  priv : Nat
  name : String
  size : Nat
  accessors : Bool
  deriving DecidableEq, Repr

/-- What the kernel and the hypervisor answer during one run of
`register_device`. -/
structure Env where
  /-- pointer returned by `kzalloc`, `0` for `NULL` -/
  kzalloc : Nat
  /-- status returned by `lv1_gpu_memory_allocate`, `0` for success -/
  lv1_status : Nat
  /-- handle stored through `&priv->memory_handle` -/
  memory_handle : Nat
  /-- value stored through `&ddr_lpar` -/
  ddr_lpar : Nat
  /-- pointer returned by `ioremap`, `0` for `NULL` -/
  ioremap : Nat
  /-- value returned by `add_mtd_device`, nonzero for failure -/
  add_mtd_device : Int
  deriving DecidableEq, Repr

/-- Calls into the kernel and the hypervisor, as recorded in the trace, each
with what it answered. -/
inductive Call where
  | kzalloc (ret : Nat)
  | lv1_gpu_memory_allocate (ddr_size : Nat) (status : Nat) (handle : Nat) (lpar : Nat)
  | ioremap (lpar : Nat) (size : Nat) (ret : Nat)
  | add_mtd_device (ret : Int)
  | del_mtd_device
  | iounmap (addr : Nat)
  | lv1_gpu_memory_free (handle : Nat)
  | kfree (ptr : Nat)
  | printk (msg : String)
  deriving DecidableEq, Repr

/-- State of the driver: the global `ps3vram_mtd`, the `ps3vram_priv` object
while it is allocated (`none` before `kzalloc` and after `kfree`), and whether
the device is on the list of the MTD core. -/
structure Driver where
  mtd : MtdInfo
  priv : Option Priv
  registered : Bool
  deriving DecidableEq, Repr

/-- The driver before `init_ps3vram`: `ps3vram_mtd` is a zeroed global. -/
def Driver.initial : Driver :=
  { mtd := { priv := 0, name := "", size := 0, accessors := false }
    priv := none
    registered := false }

/-- Outcome of `register_device`. -/
structure RegResult where
  ret : Int
  state : Driver
  trace : List Call
  deriving DecidableEq, Repr

/-- Embedding of `register_device`, run from state `s` with the answers `env`.
`ddr_size` is a `uint64_t`, so `ddr_size -= SKIP_SIZE` is computed modulo
`2 ^ 64`, and the assignment to `ps3vram_mtd.size` converts to the type of
that field. -/
def register_device (abi : MtdAbi) (env : Env) (s : Driver) : RegResult :=
  let mtd0 : MtdInfo := { s.mtd with priv := env.kzalloc }
  let c_kzalloc := Call.kzalloc env.kzalloc
  if env.kzalloc = 0 then
    -- out0
    { ret := - EIO
      state := { s with mtd := mtd0, priv := none }
      trace := [c_kzalloc] }
  else
    let ddr_size := DDR_SIZE
    let priv0 : Priv := { memory_handle := env.memory_handle, base := 0, real_base := 0 }
    let c_allocate :=
      Call.lv1_gpu_memory_allocate ddr_size env.lv1_status env.memory_handle env.ddr_lpar
    if env.lv1_status ≠ 0 then
      -- out1
      { ret := - EIO
        state := { s with mtd := mtd0, priv := none }
        trace := [c_kzalloc, c_allocate,
          Call.printk "ps3vram: lv1_gpu_memory_allocate failed",
          Call.kfree mtd0.priv] }
    else
      let priv1 : Priv := { priv0 with base := env.ioremap, real_base := env.ioremap }
      let c_ioremap := Call.ioremap env.ddr_lpar ddr_size env.ioremap
      if priv1.real_base = 0 then
        -- out2
        { ret := - EIO
          state := { s with mtd := mtd0, priv := none }
          trace := [c_kzalloc, c_allocate, c_ioremap,
            Call.printk "ps3vram: ioremap failed",
            Call.lv1_gpu_memory_free priv1.memory_handle,
            Call.kfree mtd0.priv] }
      else
        let priv2 : Priv := { priv1 with base := priv1.base + SKIP_SIZE }
        let ddr_size2 := (ddr_size + SIZE_MOD - SKIP_SIZE) % SIZE_MOD
        let mtd1 : MtdInfo :=
          { mtd0 with name := "ps3vram", size := ddr_size2 % abi.modulus, accessors := true }
        let c_add := Call.add_mtd_device env.add_mtd_device
        if env.add_mtd_device ≠ 0 then
          -- out3
          { ret := -EAGAIN
            state := { s with mtd := mtd1, priv := none }
            trace := [c_kzalloc, c_allocate, c_ioremap, c_add,
              Call.printk "ps3vram: failed to register device",
              Call.iounmap priv2.real_base,
              Call.lv1_gpu_memory_free priv2.memory_handle,
              Call.kfree mtd1.priv] }
        else
          { ret := 0
            state := { mtd := mtd1, priv := some priv2, registered := true }
            trace := [c_kzalloc, c_allocate, c_ioremap, c_add,
              Call.printk "ps3vram mtd device registered"] }

/-- A resource held by the driver. -/
inductive Resource where
  /-- the `ps3vram_priv` object at this address -/
  | object (ptr : Nat)
  /-- the video memory granted under this handle -/
  | grant (handle : Nat)
  /-- the mapping at this address -/
  | mapping (addr : Nat)
  deriving DecidableEq, Repr

/-- The resources given back by the calls of a trace, in call order. -/
def released : List Call → List Resource
  | [] => []
  | Call.iounmap a :: t => Resource.mapping a :: released t
  | Call.lv1_gpu_memory_free h :: t => Resource.grant h :: released t
  | Call.kfree p :: t => Resource.object p :: released t
  | _ :: t => released t

/-- The resources obtained by the calls of a trace, in call order: a
`kzalloc` or `ioremap` that did not answer `NULL`, and a
`lv1_gpu_memory_allocate` that answered status `0`. -/
def acquired : List Call → List Resource
  | [] => []
  | Call.kzalloc r :: t =>
      if r ≠ 0 then Resource.object r :: acquired t else acquired t
  | Call.lv1_gpu_memory_allocate _ st h _ :: t =>
      if st = 0 then Resource.grant h :: acquired t else acquired t
  | Call.ioremap _ _ r :: t =>
      if r ≠ 0 then Resource.mapping r :: acquired t else acquired t
  | _ :: t => acquired t

/-! ## Module entry points -/

/-- Outcome of `init_ps3vram`. -/
structure InitResult where
  ret : Int
  state : Driver
  trace : List Call
  deriving DecidableEq, Repr

/-- Embedding of `init_ps3vram`: the value of `register_device()` is dropped
and `0` is returned. -/
def init_ps3vram (abi : MtdAbi) (env : Env) (s : Driver) : InitResult :=
  let r := register_device abi env s
  { ret := 0, state := r.state, trace := r.trace }

/-- Outcome of `unregister_devices` and of `cleanup_ps3vram` (both `void`). -/
structure ExitResult where
  state : Driver
  trace : List Call
  deriving DecidableEq, Repr

/-- Embedding of `unregister_devices`.  The function has no test of its own:
it loads `priv = ps3vram_mtd.priv` and calls `del_mtd_device`, `iounmap`,
`lv1_gpu_memory_free` and `kfree` in every state.  When `ps3vram_mtd.priv`
points to no allocated object (it is `NULL` or was freed), what the loads
`priv->real_base` and `priv->memory_handle` yield is not defined by C; the
embedding takes it as the parameter `stale`. -/
def unregister_devices (s : Driver) (stale : Priv) : ExitResult :=
  let priv : Priv := s.priv.getD stale
  { state := { s with priv := none, registered := false }
    trace := [Call.del_mtd_device,
      Call.iounmap priv.real_base,
      Call.lv1_gpu_memory_free priv.memory_handle,
      Call.kfree s.mtd.priv,
      Call.printk "ps3vram mtd device unregistered"] }

/-- Embedding of `cleanup_ps3vram`. -/
def cleanup_ps3vram (s : Driver) (stale : Priv) : ExitResult :=
  unregister_devices s stale

/-- Every call of `register_device` with answers `env` succeeds. -/
def Env.allSucceed (env : Env) : Prop :=
  env.kzalloc ≠ 0 ∧ env.lv1_status = 0 ∧ env.ioremap ≠ 0 ∧ env.add_mtd_device = 0

instance (env : Env) : Decidable env.allSucceed := by
  unfold Env.allSucceed; infer_instance

/-! ## Lemmas on the range check and the clamp -/

theorem modulus_le_size_mod (abi : MtdAbi) : abi.modulus ≤ SIZE_MOD := by
  cases abi <;> simp [MtdAbi.modulus, SIZE_MOD]

theorem offset_ge_size_of_le (abi : MtdAbi) (size : Nat) (ofs : Int)
    (hhi : ofs ≤ LOFF_MAX) (h : (size : Int) ≤ ofs) :
    offset_ge_size abi size ofs = true := by
  cases abi
  · simp [offset_ge_size, h]
  · have h0 : (0 : Int) ≤ ofs := le_trans (Int.ofNat_nonneg size) h
    have h1 : ofs < (SIZE_MOD : Int) := by
      simp only [LOFF_MAX, SIZE_MOD] at *
      push_cast
      omega
    simp [offset_ge_size, Int.emod_eq_of_lt h0 h1, h]

theorem offset_ge_size_of_lt (abi : MtdAbi) (size : Nat) (ofs : Int)
    (hsize : size < abi.modulus) (h0 : 0 ≤ ofs) (h : ofs < size) :
    offset_ge_size abi size ofs = false := by
  have hm := modulus_le_size_mod abi
  have h1 : ofs < (SIZE_MOD : Int) := by
    have : (size : Int) < (SIZE_MOD : Int) := by exact_mod_cast lt_of_lt_of_le hsize hm
    omega
  cases abi
  · simp [offset_ge_size, h]
  · simp [offset_ge_size, Int.emod_eq_of_lt h0 h1, h]

theorem offset_ge_size_u32_of_lt (size : Nat) (ofs : Int) (h : ofs < size) :
    offset_ge_size .u32 size ofs = false := by
  simp [offset_ge_size, h]

theorem size_minus_offset_eq (abi : MtdAbi) (size : Nat) (ofs : Int)
    (hsize : size < abi.modulus) (h0 : 0 ≤ ofs) (h : ofs < size) :
    size_minus_offset size ofs = size - ofs.toNat := by
  have hm := modulus_le_size_mod abi
  have hs : (size : Int) < (SIZE_MOD : Int) := by exact_mod_cast lt_of_lt_of_le hsize hm
  have h1 : (size : Int) - ofs < (SIZE_MOD : Int) := by omega
  have h2 : (0 : Int) ≤ (size : Int) - ofs := by omega
  unfold size_minus_offset
  rw [Int.emod_eq_of_lt h2 h1]
  omega

theorem clamp_len_eq (abi : MtdAbi) (size : Nat) (ofs : Int) (len : Nat)
    (hsize : size < abi.modulus) (h0 : 0 ≤ ofs) (h : ofs < size) :
    clamp_len size ofs len = min len (size - ofs.toNat) := by
  unfold clamp_len
  rw [size_minus_offset_eq abi size ofs hsize h0 h]
  split <;> omega

/-- What `ps3vram_read` does for an offset inside the window. -/
theorem read_inside_window (abi : MtdAbi) (size : Nat) (mem : Mem) (off len : Nat)
    (buf : Buf) (hsize : size < abi.modulus) (h : off < size) :
    (ps3vram_read abi size mem off len buf).ret = 0 ∧
    (ps3vram_read abi size mem off len buf).retlen = some (min len (size - off)) ∧
    (∀ i, i < min len (size - off) →
      (ps3vram_read abi size mem off len buf).buf i = mem ((off : Int) + i)) ∧
    (∀ i, min len (size - off) ≤ i →
      (ps3vram_read abi size mem off len buf).buf i = buf i) ∧
    (ps3vram_read abi size mem off len buf).bytes
      = (List.range (min len (size - off))).map (fun i : Nat => mem ((off : Int) + (i : Int))) ∧
    (ps3vram_read abi size mem off len buf).mem = mem := by
  have hg := offset_ge_size_of_lt abi size off hsize (Int.ofNat_nonneg off)
    (by exact_mod_cast h)
  have hc := clamp_len_eq abi size off len hsize (Int.ofNat_nonneg off)
    (by exact_mod_cast h)
  simp only [Int.toNat_ofNat] at hc
  have hbuf : ∀ i, i < min len (size - off) →
      (ps3vram_read abi size mem off len buf).buf i = mem ((off : Int) + i) := by
    intro i hi
    simp [ps3vram_read, hg, hc, memcpy_from_vram]
    omega
  refine ⟨?_, ?_, hbuf, ?_, ?_, ?_⟩
  · simp [ps3vram_read, hg]
  · simp [ps3vram_read, hg, hc]
  · intro i hi
    simp only [ps3vram_read, hg, hc, Bool.false_eq_true, if_false]
    unfold memcpy_from_vram
    rw [if_neg (by omega)]
  · have hr : (ps3vram_read abi size mem off len buf).retlen = some (min len (size - off)) := by
      simp [ps3vram_read, hg, hc]
    unfold IoResult.bytes
    rw [hr]
    apply List.map_congr_left
    intro i hi
    exact hbuf i (by simpa using hi)
  · simp [ps3vram_read, hg]

/-- What `ps3vram_write` does for an offset inside the window. -/
theorem write_inside_window (abi : MtdAbi) (size : Nat) (mem : Mem) (off len : Nat)
    (buf : Buf) (hsize : size < abi.modulus) (h : off < size) :
    (ps3vram_write abi size mem off len buf).ret = 0 ∧
    (ps3vram_write abi size mem off len buf).retlen = some (min len (size - off)) ∧
    (∀ i, i < min len (size - off) →
      (ps3vram_write abi size mem off len buf).mem ((off : Int) + i) = buf i) ∧
    (∀ p : Int, ¬ ((off : Int) ≤ p ∧ p < (off : Int) + (min len (size - off) : Nat)) →
      (ps3vram_write abi size mem off len buf).mem p = mem p) := by
  have hg := offset_ge_size_of_lt abi size off hsize (Int.ofNat_nonneg off)
    (by exact_mod_cast h)
  have hc := clamp_len_eq abi size off len hsize (Int.ofNat_nonneg off)
    (by exact_mod_cast h)
  simp only [Int.toNat_ofNat] at hc
  refine ⟨?_, ?_, ?_, ?_⟩
  · simp [ps3vram_write, hg]
  · simp [ps3vram_write, hg, hc]
  · intro i hi
    simp only [ps3vram_write, hg, hc, Bool.false_eq_true, if_false]
    unfold memcpy_to_vram
    rw [if_pos (by omega)]
    congr 1
    omega
  · intro p hp
    simp only [ps3vram_write, hg, hc, Bool.false_eq_true, if_false]
    unfold memcpy_to_vram
    rw [if_neg hp]

/-! ## Claims on the accessors -/

/-- C1: `ps3vram_read` and `ps3vram_write` return `-EINVAL` and leave the
video memory as it is when the offset is at or past `mtd->size`, and return
`0` for every offset inside the window, whatever the requested length.  With a
`u_int32_t` size the second half holds for every `loff_t` offset below the
size. -/
theorem read_write_range_check (abi : MtdAbi) (size : Nat) (mem : Mem) (ofs : Int)
    (len : Nat) (buf : Buf) (hsize : size < abi.modulus) (hhi : ofs ≤ LOFF_MAX) :
    ((size : Int) ≤ ofs →
        (ps3vram_read abi size mem ofs len buf).ret = -EINVAL ∧
        (ps3vram_read abi size mem ofs len buf).mem = mem ∧
        (ps3vram_write abi size mem ofs len buf).ret = -EINVAL ∧
        (ps3vram_write abi size mem ofs len buf).mem = mem) ∧
    (0 ≤ ofs → ofs < size →
        (ps3vram_read abi size mem ofs len buf).ret = 0 ∧
        (ps3vram_write abi size mem ofs len buf).ret = 0) ∧
    (abi = MtdAbi.u32 → ofs < size →
        (ps3vram_read abi size mem ofs len buf).ret = 0 ∧
        (ps3vram_write abi size mem ofs len buf).ret = 0) := by
  refine ⟨fun h => ?_, fun h0 h => ?_, fun ha h => ?_⟩
  · simp [ps3vram_read, ps3vram_write, offset_ge_size_of_le abi size ofs hhi h]
  · simp [ps3vram_read, ps3vram_write, offset_ge_size_of_lt abi size ofs hsize h0 h]
  · subst ha
    simp [ps3vram_read, ps3vram_write, offset_ge_size_u32_of_lt size ofs h]

/-- A concrete run on a window of 6144 bytes: offset 6144 is refused by both
accessors, offset 6000 is accepted by both. -/
theorem read_write_range_check_witness :
    (6144 < MtdAbi.u32.modulus ∧ (6144 : Int) ≤ LOFF_MAX) ∧
    (ps3vram_read .u32 6144 (fun _ => 0) 6144 1 (fun _ => 0)).ret = -EINVAL ∧
    (ps3vram_write .u32 6144 (fun _ => 0) 6144 1 (fun _ => 0)).ret = -EINVAL ∧
    (ps3vram_read .u32 6144 (fun _ => 0) 6000 200 (fun _ => 0)).ret = 0 ∧
    (ps3vram_write .u32 6144 (fun _ => 0) 6000 200 (fun _ => 0)).ret = 0 :=
  have h := (read_write_range_check .u32 6144 (fun _ => 0) 6144 1 (fun _ => 0)
    (by decide) (by decide)).1 (by decide)
  have g := (read_write_range_check .u32 6144 (fun _ => 0) 6000 200 (fun _ => 0)
    (by decide) (by decide)).2.1 (by decide) (by decide)
  ⟨⟨by decide, by decide⟩, h.1, h.2.2.1, g.1, g.2⟩

/-- C2: for an offset inside the window `ps3vram_read` stores
`min len (size - off)` to `*retlen`, the buffer then holds the bytes of the
window at `off, off + 1, ...` up to that count (and is untouched after them),
and the video memory is unchanged. -/
theorem read_clamped_copy (abi : MtdAbi) (size : Nat) (mem : Mem) (off len : Nat)
    (buf : Buf) (hsize : size < abi.modulus) (h : off < size) :
    (ps3vram_read abi size mem off len buf).ret = 0 ∧
    (ps3vram_read abi size mem off len buf).retlen = some (min len (size - off)) ∧
    (∀ i, i < min len (size - off) →
      (ps3vram_read abi size mem off len buf).buf i = mem ((off : Int) + i)) ∧
    (∀ i, min len (size - off) ≤ i →
      (ps3vram_read abi size mem off len buf).buf i = buf i) ∧
    (ps3vram_read abi size mem off len buf).bytes
      = (List.range (min len (size - off))).map (fun i : Nat => mem ((off : Int) + (i : Int))) ∧
    (ps3vram_read abi size mem off len buf).mem = mem :=
  read_inside_window abi size mem off len buf hsize h

/-- A concrete run: a read of 200 bytes at offset 6000 of a window of 6144
bytes hands back 144 bytes. -/
theorem read_clamped_copy_witness :
    (6144 < MtdAbi.u32.modulus ∧ 6000 < 6144) ∧
    (ps3vram_read .u32 6144 (fun _ => 7) (6000 : Nat) 200 (fun _ => 0)).retlen = some 144 :=
  ⟨⟨by decide, by decide⟩,
    (read_clamped_copy .u32 6144 (fun _ => 7) 6000 200 (fun _ => 0) (by decide) (by decide)).2.1⟩

/-- C3: for an offset inside the window `ps3vram_write` stores
`n = min len (size - off)` to `*retlen`; afterwards the window holds
`buf[0..n)` at `off .. off + n` and every other byte of the video memory is
as before. -/
theorem write_clamped_copy (abi : MtdAbi) (size : Nat) (mem : Mem) (off len : Nat)
    (buf : Buf) (hsize : size < abi.modulus) (h : off < size) :
    (ps3vram_write abi size mem off len buf).ret = 0 ∧
    (ps3vram_write abi size mem off len buf).retlen = some (min len (size - off)) ∧
    (∀ i, i < min len (size - off) →
      (ps3vram_write abi size mem off len buf).mem ((off : Int) + i) = buf i) ∧
    (∀ p : Int, ¬ ((off : Int) ≤ p ∧ p < (off : Int) + (min len (size - off) : Nat)) →
      (ps3vram_write abi size mem off len buf).mem p = mem p) :=
  write_inside_window abi size mem off len buf hsize h

/-- A concrete run, the scenario of the specification: in a window of 6144
bytes a write of 200 bytes `0xAA` at offset 6000 reports 144, and the bytes
before 6000 and from 6144 on are as before. -/
theorem write_clamped_copy_witness :
    (6144 < MtdAbi.u32.modulus ∧ 6000 < 6144) ∧
    (ps3vram_write .u32 6144 (fun _ => 0) (6000 : Nat) 200 (fun _ => 0xAA)).retlen = some 144 ∧
    (ps3vram_write .u32 6144 (fun _ => 0) (6000 : Nat) 200 (fun _ => 0xAA)).mem 6143 = 0xAA ∧
    (ps3vram_write .u32 6144 (fun _ => 0) (6000 : Nat) 200 (fun _ => 0xAA)).mem 5999 = 0 ∧
    (ps3vram_write .u32 6144 (fun _ => 0) (6000 : Nat) 200 (fun _ => 0xAA)).mem 6144 = 0 :=
  have h := write_clamped_copy .u32 6144 (fun _ => 0) 6000 200 (fun _ => 0xAA)
    (by decide) (by decide)
  ⟨⟨by decide, by decide⟩, h.2.1, h.2.2.1 143 (by decide), h.2.2.2 5999 (by decide),
    h.2.2.2 6144 (by decide)⟩

/-- C4: an erase request with `addr + len ≤ size` returns `0`, leaves
`instr->state = MTD_ERASE_DONE`, calls `mtd_erase_callback` on the finished
request after the `memset` and before returning, sets the bytes of
`[addr, addr + len)` to `0xFF` and leaves every other byte as it was. -/
theorem erase_in_range (abi : MtdAbi) (size : Nat) (mem : Mem) (instr : EraseInfo)
    (hsize : size < abi.modulus) (h : instr.addr + instr.len ≤ size) :
    (ps3vram_erase abi size mem instr).ret = 0 ∧
    (ps3vram_erase abi size mem instr).instr = { instr with state := MTD_ERASE_DONE } ∧
    (ps3vram_erase abi size mem instr).trace
      = [Ev.memset instr.addr 0xFF instr.len,
         Ev.mtd_erase_callback { instr with state := MTD_ERASE_DONE }] ∧
    (∀ p : Int, (instr.addr : Int) ≤ p → p < (instr.addr : Int) + instr.len →
      (ps3vram_erase abi size mem instr).mem p = 0xFF) ∧
    (∀ p : Int, ¬ ((instr.addr : Int) ≤ p ∧ p < (instr.addr : Int) + instr.len) →
      (ps3vram_erase abi size mem instr).mem p = mem p) := by
  have hmod : (instr.addr + instr.len) % abi.modulus = instr.addr + instr.len :=
    Nat.mod_eq_of_lt (lt_of_le_of_lt h hsize)
  have hg : ¬ (instr.addr + instr.len) % abi.modulus > size := by
    rw [hmod]; omega
  refine ⟨?_, ?_, ?_, ?_, ?_⟩
  · simp [ps3vram_erase, hg]
  · simp [ps3vram_erase, hg]
  · simp [ps3vram_erase, hg]
  · intro p h1 h2
    simp only [ps3vram_erase, if_neg hg, memset]
    rw [if_pos ⟨h1, h2⟩]
  · intro p hp
    simp only [ps3vram_erase, if_neg hg, memset]
    rw [if_neg hp]

/-- A concrete run: erasing bytes 6000..6143 of a window of 6144 bytes. -/
theorem erase_in_range_witness :
    (6144 < MtdAbi.u32.modulus ∧ 6000 + 144 ≤ 6144) ∧
    (ps3vram_erase .u32 6144 (fun _ => 0) ⟨6000, 144, 1⟩).ret = 0 ∧
    (ps3vram_erase .u32 6144 (fun _ => 0) ⟨6000, 144, 1⟩).instr.state = MTD_ERASE_DONE ∧
    (ps3vram_erase .u32 6144 (fun _ => 0) ⟨6000, 144, 1⟩).mem 6143 = 0xFF ∧
    (ps3vram_erase .u32 6144 (fun _ => 0) ⟨6000, 144, 1⟩).mem 5999 = 0 :=
  have h := erase_in_range .u32 6144 (fun _ => 0) ⟨6000, 144, 1⟩ (by decide) (by decide)
  ⟨⟨by decide, by decide⟩, h.1, by rw [h.2.1], h.2.2.2.1 6143 (by decide) (by decide),
    h.2.2.2.2 5999 (by decide)⟩

/-- Where `addr + len` does not wrap around in the type of the two fields, an
erase request that ends past the window is refused and nothing is changed. -/
theorem erase_refused_without_wraparound (abi : MtdAbi) (size : Nat) (mem : Mem)
    (instr : EraseInfo) (hfit : instr.addr + instr.len < abi.modulus)
    (h : size < instr.addr + instr.len) :
    (ps3vram_erase abi size mem instr).ret = -EINVAL ∧
    (ps3vram_erase abi size mem instr).mem = mem ∧
    (ps3vram_erase abi size mem instr).instr = instr ∧
    (ps3vram_erase abi size mem instr).trace = [] := by
  have hg : (instr.addr + instr.len) % abi.modulus > size := by
    rw [Nat.mod_eq_of_lt hfit]; exact h
  simp [ps3vram_erase, hg]

/-- The scenario of the specification: in a window of 6144 bytes,
`erase(6000, 200)` is refused and bytes 6000..6143 keep their contents. -/
theorem erase_refused_scenario (mem : Mem) :
    (ps3vram_erase .u32 6144 mem ⟨6000, 200, 1⟩).ret = -EINVAL ∧
    (ps3vram_erase .u32 6144 mem ⟨6000, 200, 1⟩).mem = mem :=
  have h := erase_refused_without_wraparound .u32 6144 mem ⟨6000, 200, 1⟩
    (by decide) (by decide)
  ⟨h.1, h.2.1⟩

/-- C5 fails on the code: on the registered device (247652352 bytes) the
request `addr = 6000`, `len = 2 ^ 32 - 6000` has the exact sum `2 ^ 32`, past
the window, yet with `u_int32_t` fields the sum wraps to `0`, the request is
accepted, and bytes inside and past the window are set to `0xFF`.  With
`uint64_t` fields the same happens for `len = 2 ^ 64 - 6000`. -/
theorem erase_wraparound_accepted :
    (247652352 < 6000 + 4294961296 ∧
      (ps3vram_erase .u32 247652352 (fun _ => 0) ⟨6000, 4294961296, 1⟩).ret = 0 ∧
      (ps3vram_erase .u32 247652352 (fun _ => 0) ⟨6000, 4294961296, 1⟩).mem 6000 = 0xFF ∧
      (ps3vram_erase .u32 247652352 (fun _ => 0) ⟨6000, 4294961296, 1⟩).mem 247652352 = 0xFF) ∧
    (247652352 < 6000 + 18446744073709545616 ∧
      (ps3vram_erase .u64 247652352 (fun _ => 0) ⟨6000, 18446744073709545616, 1⟩).ret = 0 ∧
      (ps3vram_erase .u64 247652352 (fun _ => 0) ⟨6000, 18446744073709545616, 1⟩).mem 6000
        = 0xFF ∧
      (ps3vram_erase .u64 247652352 (fun _ => 0) ⟨6000, 18446744073709545616, 1⟩).mem 247652352
        = 0xFF) := by
  decide

/-- Where nothing wraps around and the offset is not negative, the accessors
stay inside the window: every position the call touches is in `[0, size)`. -/
theorem accessors_in_window_without_wraparound (abi : MtdAbi) (size : Nat) (mem : Mem)
    (ofs : Int) (len : Nat) (buf : Buf) (instr : EraseInfo)
    (hsize : size < abi.modulus) (h0 : 0 ≤ ofs) (hhi : ofs ≤ LOFF_MAX)
    (hfit : instr.addr + instr.len < abi.modulus) :
    traceInWindow size (ps3vram_read abi size mem ofs len buf).trace ∧
    traceInWindow size (ps3vram_write abi size mem ofs len buf).trace ∧
    traceInWindow size (ps3vram_erase abi size mem instr).trace := by
  have hrange : ∀ p : Int, ofs < size → ofs ≤ p → p < ofs + (clamp_len size ofs len : Nat) →
      0 ≤ p ∧ p < size := by
    intro p hlt h1 h2
    rw [clamp_len_eq abi size ofs len hsize h0 hlt] at h2
    omega
  refine ⟨?_, ?_, ?_⟩
  · by_cases hlt : ofs < size
    · have hg := offset_ge_size_of_lt abi size ofs hsize h0 hlt
      intro e he p hp
      simp only [ps3vram_read, hg, Bool.false_eq_true, if_false, List.mem_singleton] at he
      subst he
      exact hrange p hlt hp.1 hp.2
    · have hg := offset_ge_size_of_le abi size ofs hhi (not_lt.mp hlt)
      intro e he
      simp [ps3vram_read, hg] at he
  · by_cases hlt : ofs < size
    · have hg := offset_ge_size_of_lt abi size ofs hsize h0 hlt
      intro e he p hp
      simp only [ps3vram_write, hg, Bool.false_eq_true, if_false, List.mem_singleton] at he
      subst he
      exact hrange p hlt hp.1 hp.2
    · have hg := offset_ge_size_of_le abi size ofs hhi (not_lt.mp hlt)
      intro e he
      simp [ps3vram_write, hg] at he
  · intro e he p hp
    unfold ps3vram_erase at he
    rw [Nat.mod_eq_of_lt hfit] at he
    split at he
    · simp at he
    · rename_i hle
      simp only [List.mem_cons, List.mem_singleton, List.not_mem_nil, or_false] at he
      rcases he with rfl | rfl
      · have h1 : (instr.addr : Int) ≤ p := hp.1
        have h2 : p < (instr.addr : Int) + instr.len := hp.2
        omega
      · exact hp.elim

/-- C6 fails on the code: on the registered device (247652352 bytes) an erase
request whose `addr + len` wraps around, and with a `u_int32_t` size a read or
a write at the negative offset `-1`, pass the range check and touch positions
outside `[0, size)`. -/
theorem accessors_leave_window :
    (ps3vram_erase .u32 247652352 (fun _ => 0) ⟨4294967295, 1, 1⟩).trace
      = [Ev.memset 4294967295 0xFF 1, Ev.mtd_erase_callback ⟨4294967295, 1, MTD_ERASE_DONE⟩] ∧
    ¬ traceInWindow 247652352
      (ps3vram_erase .u32 247652352 (fun _ => 0) ⟨4294967295, 1, 1⟩).trace ∧
    ¬ traceInWindow 247652352
      (ps3vram_erase .u64 247652352 (fun _ => 0) ⟨18446744073709551615, 1, 1⟩).trace ∧
    (ps3vram_read .u32 247652352 (fun _ => 0) (-1) 1 (fun _ => 0)).trace
      = [Ev.memcpy_from_vram (-1) 1] ∧
    ¬ traceInWindow 247652352
      (ps3vram_read .u32 247652352 (fun _ => 0) (-1) 1 (fun _ => 0)).trace ∧
    (ps3vram_write .u32 247652352 (fun _ => 0) (-1) 1 (fun _ => 0)).trace
      = [Ev.memcpy_to_vram (-1) 1] ∧
    ¬ traceInWindow 247652352
      (ps3vram_write .u32 247652352 (fun _ => 0) (-1) 1 (fun _ => 0)).trace := by
  refine ⟨by decide, fun h => ?_, fun h => ?_, by decide, fun h => ?_, by decide, fun h => ?_⟩
  · have := h (Ev.memset 4294967295 0xFF 1) (by decide) 4294967295 (by decide)
    omega
  · have := h (Ev.memset 18446744073709551615 0xFF 1) (by decide) 18446744073709551615
      (by decide)
    omega
  · have := h (Ev.memcpy_from_vram (-1) 1) (by decide) (-1) (by decide)
    omega
  · have := h (Ev.memcpy_to_vram (-1) 1) (by decide) (-1) (by decide)
    omega

theorem map_bufOfList_range (data : List Byte) (n : Nat) (hn : n ≤ data.length) :
    (List.range n).map (bufOfList data) = data.take n := by
  apply List.ext_getElem
  · simp [hn]
  · intro i h1 h2
    have hi : i < n := by simpa using h1
    have hd : i < data.length := lt_of_lt_of_le hi hn
    simp [bufOfList, List.getElem?_eq_getElem hd]

/-- C7: for an offset inside the window, writing `data` and reading
`data.length` bytes back at the same offset returns the first
`min data.length (size - off)` bytes of `data`; at offset `0` with
`data.length ≤ size` that is `data` itself. -/
theorem write_read_round_trip (abi : MtdAbi) (size : Nat) (mem : Mem) (off : Nat)
    (data : List Byte) (buf0 : Buf) (hsize : size < abi.modulus) (h : off < size) :
    (ps3vram_read abi size
      (ps3vram_write abi size mem off data.length (bufOfList data)).mem
      off data.length buf0).ret = 0 ∧
    (ps3vram_read abi size
      (ps3vram_write abi size mem off data.length (bufOfList data)).mem
      off data.length buf0).bytes = data.take (min data.length (size - off)) ∧
    (off = 0 → data.length ≤ size →
      (ps3vram_read abi size
        (ps3vram_write abi size mem off data.length (bufOfList data)).mem
        off data.length buf0).bytes = data) := by
  have hw := write_inside_window abi size mem off data.length (bufOfList data) hsize h
  have hr := read_inside_window abi size
    (ps3vram_write abi size mem off data.length (bufOfList data)).mem
    off data.length buf0 hsize h
  have hbytes : (ps3vram_read abi size
      (ps3vram_write abi size mem off data.length (bufOfList data)).mem
      off data.length buf0).bytes = data.take (min data.length (size - off)) := by
    rw [hr.2.2.2.2.1, ← map_bufOfList_range data _ (Nat.min_le_left _ _)]
    apply List.map_congr_left
    intro i hi
    exact hw.2.2.1 i (by simpa using hi)
  refine ⟨hr.1, hbytes, ?_⟩
  intro h0 hlen
  subst h0
  rw [hbytes, Nat.sub_zero, Nat.min_eq_left hlen, List.take_length]

/-- A concrete run: three bytes written at offset 0 of a window of 6144 bytes
are read back. -/
theorem write_read_round_trip_witness :
    (6144 < MtdAbi.u32.modulus ∧ 0 < 6144) ∧
    (ps3vram_read .u32 6144
      (ps3vram_write .u32 6144 (fun _ => 0) (0 : Nat) 3 (bufOfList [1, 2, 3])).mem
      (0 : Nat) 3 (fun _ => 0)).bytes = [1, 2, 3] :=
  ⟨⟨by decide, by decide⟩,
    (write_read_round_trip .u32 6144 (fun _ => 0) 0 [1, 2, 3] (fun _ => 0)
      (by decide) (by decide)).2.2 rfl (by decide)⟩

/-- C8: for an offset inside the window, writing the bytes a read has just
returned back to the same offset returns `0`, reports the byte count the read
reported, and leaves the video memory as it was before the read. -/
theorem read_then_write_back (abi : MtdAbi) (size : Nat) (mem : Mem) (off len : Nat)
    (buf : Buf) (hsize : size < abi.modulus) (h : off < size) :
    (ps3vram_write abi size (ps3vram_read abi size mem off len buf).mem off
      ((ps3vram_read abi size mem off len buf).retlen.getD 0)
      (ps3vram_read abi size mem off len buf).buf).ret = 0 ∧
    (ps3vram_write abi size (ps3vram_read abi size mem off len buf).mem off
      ((ps3vram_read abi size mem off len buf).retlen.getD 0)
      (ps3vram_read abi size mem off len buf).buf).retlen
      = (ps3vram_read abi size mem off len buf).retlen ∧
    (ps3vram_write abi size (ps3vram_read abi size mem off len buf).mem off
      ((ps3vram_read abi size mem off len buf).retlen.getD 0)
      (ps3vram_read abi size mem off len buf).buf).mem = mem := by
  have hr := read_inside_window abi size mem off len buf hsize h
  have hn : (ps3vram_read abi size mem off len buf).retlen.getD 0 = min len (size - off) := by
    rw [hr.2.1]; rfl
  rw [hn, hr.2.2.2.2.2]
  have hw := write_inside_window abi size mem off (min len (size - off))
    (ps3vram_read abi size mem off len buf).buf hsize h
  have hmin : min (min len (size - off)) (size - off) = min len (size - off) := by omega
  rw [hmin] at hw
  refine ⟨hw.1, ?_, ?_⟩
  · rw [hw.2.1, hr.2.1]
  · funext p
    by_cases hp : (off : Int) ≤ p ∧ p < (off : Int) + (min len (size - off) : Nat)
    · have hi : (p - off).toNat < min len (size - off) := by omega
      have hpos : (off : Int) + ((p - off).toNat : Nat) = p := by omega
      have h1 := hw.2.2.1 _ hi
      rw [hpos] at h1
      rw [h1, hr.2.2.1 _ hi, hpos]
    · exact hw.2.2.2 p hp

/-- A concrete run: reading 200 bytes at offset 6000 of a window of 6144 bytes
and writing them back reports 144 bytes again. -/
theorem read_then_write_back_witness :
    (6144 < MtdAbi.u32.modulus ∧ 6000 < 6144) ∧
    (ps3vram_write .u32 6144
      (ps3vram_read .u32 6144 (fun _ => 7) (6000 : Nat) 200 (fun _ => 0)).mem (6000 : Nat)
      ((ps3vram_read .u32 6144 (fun _ => 7) (6000 : Nat) 200 (fun _ => 0)).retlen.getD 0)
      (ps3vram_read .u32 6144 (fun _ => 7) (6000 : Nat) 200 (fun _ => 0)).buf).mem
      = (fun _ => 7) :=
  ⟨⟨by decide, by decide⟩,
    (read_then_write_back .u32 6144 (fun _ => 7) 6000 200 (fun _ => 0)
      (by decide) (by decide)).2.2⟩

/-! ## Claims on initialisation -/

/-- C9: when allocation, grant, map and registration all succeed,
`register_device` returns `0` with `priv->base = priv->real_base + SKIP_SIZE`
and `ps3vram_mtd.size = DDR_SIZE - SKIP_SIZE`; `SKIP_SIZE` is 16588800, it is
below `DDR_SIZE`, and the size is 247652352. -/
theorem register_device_layout (abi : MtdAbi) (env : Env) (s : Driver)
    (hk : env.kzalloc ≠ 0) (hg : env.lv1_status = 0) (hm : env.ioremap ≠ 0)
    (hr : env.add_mtd_device = 0) :
    (register_device abi env s).ret = 0 ∧
    (register_device abi env s).state.priv
      = some { memory_handle := env.memory_handle
               base := env.ioremap + SKIP_SIZE
               real_base := env.ioremap } ∧
    (register_device abi env s).state.mtd.size = DDR_SIZE - SKIP_SIZE ∧
    SKIP_SIZE = 16588800 ∧ SKIP_SIZE ≤ DDR_SIZE ∧ DDR_SIZE - SKIP_SIZE = 247652352 := by
  refine ⟨?_, ?_, ?_, by decide, by decide, by decide⟩
  · simp [register_device, hk, hg, hm, hr]
  · simp [register_device, hk, hg, hm, hr]
  · cases abi <;>
      simp [register_device, hk, hg, hm, hr, MtdAbi.modulus, DDR_SIZE, SKIP_SIZE, SIZE_MOD]

/-- A concrete run in which every call succeeds. -/
theorem register_device_layout_witness :
    ((4096 : Nat) ≠ 0 ∧ (0 : Nat) = 0 ∧ (65536 : Nat) ≠ 0 ∧ (0 : Int) = 0) ∧
    (register_device .u32 ⟨4096, 0, 9, 1, 65536, 0⟩ Driver.initial).state.priv
      = some { memory_handle := 9, base := 65536 + SKIP_SIZE, real_base := 65536 } ∧
    (register_device .u32 ⟨4096, 0, 9, 1, 65536, 0⟩ Driver.initial).state.mtd.size
      = 247652352 :=
  have h := register_device_layout .u32 ⟨4096, 0, 9, 1, 65536, 0⟩ Driver.initial
    (by decide) rfl (by decide) rfl
  ⟨⟨by decide, rfl, by decide, rfl⟩, h.2.1, h.2.2.1.trans h.2.2.2.2.2⟩

/-- C10: a failing run of `register_device` returns a nonzero error, leaves no
`ps3vram_priv` object, and gives back exactly what it obtained, in reverse
order.  After a failed grant only `kfree` is called; after a failed `ioremap`
`lv1_gpu_memory_free` and then `kfree`; after a failed `add_mtd_device`
`iounmap(priv->real_base)`, `lv1_gpu_memory_free` and then `kfree`; in these
three cases `kfree` is the last call of the run. -/
theorem register_device_unwinds (abi : MtdAbi) (env : Env) (s : Driver)
    (hfail : env.kzalloc = 0 ∨ env.lv1_status ≠ 0 ∨ env.ioremap = 0 ∨
      env.add_mtd_device ≠ 0) :
    (register_device abi env s).ret ≠ 0 ∧
    (register_device abi env s).state.priv = none ∧
    (register_device abi env s).state.registered = s.registered ∧
    released (register_device abi env s).trace
      = (acquired (register_device abi env s).trace).reverse ∧
    (env.kzalloc = 0 → released (register_device abi env s).trace = []) ∧
    (env.kzalloc ≠ 0 → env.lv1_status ≠ 0 →
      released (register_device abi env s).trace = [Resource.object env.kzalloc] ∧
      (register_device abi env s).trace.getLast? = some (Call.kfree env.kzalloc)) ∧
    (env.kzalloc ≠ 0 → env.lv1_status = 0 → env.ioremap = 0 →
      released (register_device abi env s).trace
        = [Resource.grant env.memory_handle, Resource.object env.kzalloc] ∧
      (register_device abi env s).trace.getLast? = some (Call.kfree env.kzalloc)) ∧
    (env.kzalloc ≠ 0 → env.lv1_status = 0 → env.ioremap ≠ 0 → env.add_mtd_device ≠ 0 →
      released (register_device abi env s).trace
        = [Resource.mapping env.ioremap, Resource.grant env.memory_handle,
           Resource.object env.kzalloc] ∧
      (register_device abi env s).trace.getLast? = some (Call.kfree env.kzalloc)) := by
  by_cases hk : env.kzalloc = 0
  · simp [register_device, hk, released, acquired, EIO]
  · by_cases hg : env.lv1_status = 0
    · by_cases hm : env.ioremap = 0
      · simp [register_device, hk, hg, hm, released, acquired, EIO]
      · have hr : env.add_mtd_device ≠ 0 := by
          rcases hfail with h | h | h | h
          · exact absurd h hk
          · exact absurd hg h
          · exact absurd h hm
          · exact h
        simp [register_device, hk, hg, hm, hr, released, acquired, EAGAIN]
    · simp [register_device, hk, hg, released, acquired, EIO]

/-- A concrete run in which `add_mtd_device` fails after grant and map
succeeded. -/
theorem register_device_unwinds_witness :
    ((4096 : Nat) = 0 ∨ (0 : Nat) ≠ 0 ∨ (65536 : Nat) = 0 ∨ (1 : Int) ≠ 0) ∧
    (register_device .u32 ⟨4096, 0, 9, 1, 65536, 1⟩ Driver.initial).ret ≠ 0 ∧
    released (register_device .u32 ⟨4096, 0, 9, 1, 65536, 1⟩ Driver.initial).trace
      = [Resource.mapping 65536, Resource.grant 9, Resource.object 4096] :=
  have h := register_device_unwinds .u32 ⟨4096, 0, 9, 1, 65536, 1⟩ Driver.initial
    (Or.inr (Or.inr (Or.inr (by decide))))
  ⟨Or.inr (Or.inr (Or.inr (by decide))), h.1,
    (h.2.2.2.2.2.2.2 (by decide) rfl (by decide) (by decide)).1⟩

/-! ## Claims on the module entry points -/

/-- In every state `unregister_devices` makes its four calls, `del_mtd_device`
first; none of them depends on whether `register_device` succeeded. -/
theorem unregister_devices_unguarded (s : Driver) (stale : Priv) :
    (unregister_devices s stale).trace.head? = some Call.del_mtd_device ∧
    Call.kfree s.mtd.priv ∈ (unregister_devices s stale).trace ∧
    (released (unregister_devices s stale).trace).length = 3 := by
  simp [unregister_devices, released]

/-- C11 fails on the code: `init_ps3vram` returns `0` also when `ioremap`
fails (the grant with handle 9 and the object at 4096 are given back by
`register_device`), and the `cleanup_ps3vram` that follows is not a no-op.
Whatever the freed object holds, it calls `del_mtd_device` and frees the
object at 4096 a second time; where the freed object still holds what it held
when it was freed, it also calls `iounmap(NULL)` and releases the grant a
second time. -/
theorem cleanup_after_failed_start :
    (init_ps3vram .u32 ⟨4096, 0, 9, 1, 0, 0⟩ Driver.initial).ret = 0 ∧
    released (init_ps3vram .u32 ⟨4096, 0, 9, 1, 0, 0⟩ Driver.initial).trace
      = [Resource.grant 9, Resource.object 4096] ∧
    (∀ stale : Priv,
      (cleanup_ps3vram (init_ps3vram .u32 ⟨4096, 0, 9, 1, 0, 0⟩ Driver.initial).state
        stale).trace ≠ [] ∧
      (cleanup_ps3vram (init_ps3vram .u32 ⟨4096, 0, 9, 1, 0, 0⟩ Driver.initial).state
        stale).trace.head? = some Call.del_mtd_device ∧
      Call.kfree 4096 ∈
        (cleanup_ps3vram (init_ps3vram .u32 ⟨4096, 0, 9, 1, 0, 0⟩ Driver.initial).state
          stale).trace) ∧
    (cleanup_ps3vram (init_ps3vram .u32 ⟨4096, 0, 9, 1, 0, 0⟩ Driver.initial).state
      ⟨9, 0, 0⟩).trace
      = [Call.del_mtd_device, Call.iounmap 0, Call.lv1_gpu_memory_free 9, Call.kfree 4096,
         Call.printk "ps3vram mtd device unregistered"] ∧
    released ((init_ps3vram .u32 ⟨4096, 0, 9, 1, 0, 0⟩ Driver.initial).trace ++
      (cleanup_ps3vram (init_ps3vram .u32 ⟨4096, 0, 9, 1, 0, 0⟩ Driver.initial).state
        ⟨9, 0, 0⟩).trace)
      = [Resource.grant 9, Resource.object 4096,
         Resource.mapping 0, Resource.grant 9, Resource.object 4096] := by
  refine ⟨by decide, by decide, fun stale => ?_, by decide, by decide⟩
  simp [cleanup_ps3vram, unregister_devices, init_ps3vram, register_device, Driver.initial]

/-- C12: after a start in which every call succeeded, `cleanup_ps3vram` calls,
in this order and once each, `del_mtd_device`, `iounmap` on `priv->real_base`
(the address `ioremap` returned, which differs from `priv->base`),
`lv1_gpu_memory_free` on the handle obtained at start, and `kfree` on the
object; over start and stop every resource obtained is given back once. -/
theorem cleanup_sequence (abi : MtdAbi) (env : Env) (s : Driver) (stale : Priv)
    (h : env.allSucceed) :
    (cleanup_ps3vram (init_ps3vram abi env s).state stale).trace
      = [Call.del_mtd_device, Call.iounmap env.ioremap,
         Call.lv1_gpu_memory_free env.memory_handle, Call.kfree env.kzalloc,
         Call.printk "ps3vram mtd device unregistered"] ∧
    (init_ps3vram abi env s).state.priv
      = some { memory_handle := env.memory_handle
               base := env.ioremap + SKIP_SIZE
               real_base := env.ioremap } ∧
    env.ioremap + SKIP_SIZE ≠ env.ioremap ∧
    released ((init_ps3vram abi env s).trace ++
      (cleanup_ps3vram (init_ps3vram abi env s).state stale).trace)
      = (acquired (init_ps3vram abi env s).trace).reverse ∧
    (cleanup_ps3vram (init_ps3vram abi env s).state stale).state.priv = none ∧
    (cleanup_ps3vram (init_ps3vram abi env s).state stale).state.registered = false := by
  obtain ⟨hk, hg, hm, hr⟩ := h
  refine ⟨?_, ?_, ?_, ?_, ?_, ?_⟩
  · simp [cleanup_ps3vram, unregister_devices, init_ps3vram, register_device, hk, hg, hm, hr]
  · simp [init_ps3vram, register_device, hk, hg, hm, hr]
  · simp [SKIP_SIZE]
  · simp [cleanup_ps3vram, unregister_devices, init_ps3vram, register_device, hk, hg, hm, hr,
      released, acquired]
  · simp [cleanup_ps3vram, unregister_devices]
  · simp [cleanup_ps3vram, unregister_devices]

/-- A concrete run: start with every call succeeding, then stop. -/
theorem cleanup_sequence_witness :
    (⟨4096, 0, 9, 1, 65536, 0⟩ : Env).allSucceed ∧
    (cleanup_ps3vram (init_ps3vram .u32 ⟨4096, 0, 9, 1, 65536, 0⟩ Driver.initial).state
      ⟨0, 0, 0⟩).trace
      = [Call.del_mtd_device, Call.iounmap 65536, Call.lv1_gpu_memory_free 9,
         Call.kfree 4096, Call.printk "ps3vram mtd device unregistered"] :=
  ⟨by decide,
    (cleanup_sequence .u32 ⟨4096, 0, 9, 1, 65536, 0⟩ Driver.initial ⟨0, 0, 0⟩ (by decide)).1⟩

/-- C13: `init_ps3vram` returns `0` whatever `register_device` did, and after
a start in which some call failed the device is not registered and no
`ps3vram_priv` object is left. -/
theorem init_ps3vram_returns_zero (abi : MtdAbi) (env : Env) :
    (init_ps3vram abi env Driver.initial).ret = 0 ∧
    (¬ env.allSucceed →
      (register_device abi env Driver.initial).ret ≠ 0 ∧
      (init_ps3vram abi env Driver.initial).state.registered = false ∧
      (init_ps3vram abi env Driver.initial).state.priv = none) := by
  refine ⟨rfl, fun h => ?_⟩
  unfold Env.allSucceed at h
  by_cases hk : env.kzalloc = 0
  · simp [init_ps3vram, register_device, hk, Driver.initial, EIO]
  · by_cases hg : env.lv1_status = 0
    · by_cases hm : env.ioremap = 0
      · simp [init_ps3vram, register_device, hk, hg, hm, Driver.initial, EIO]
      · have hr : env.add_mtd_device ≠ 0 := fun hr => h ⟨hk, hg, hm, hr⟩
        simp [init_ps3vram, register_device, hk, hg, hm, hr, Driver.initial, EAGAIN]
    · simp [init_ps3vram, register_device, hk, hg, Driver.initial, EIO]

/-- A concrete run: the grant is refused, `register_device` returns `-EIO`
and `init_ps3vram` returns `0`. -/
theorem init_ps3vram_returns_zero_witness :
    ¬ (⟨4096, 1, 0, 0, 0, 0⟩ : Env).allSucceed ∧
    (register_device .u32 ⟨4096, 1, 0, 0, 0, 0⟩ Driver.initial).ret = - EIO ∧
    (init_ps3vram .u32 ⟨4096, 1, 0, 0, 0, 0⟩ Driver.initial).ret = 0 ∧
    (init_ps3vram .u32 ⟨4096, 1, 0, 0, 0, 0⟩ Driver.initial).state.registered = false :=
  have h := init_ps3vram_returns_zero .u32 ⟨4096, 1, 0, 0, 0, 0⟩
  ⟨by decide, by decide, h.1, (h.2 (by decide)).2.1⟩

/-! ## Further claims on the accessors and on `register_device` -/

theorem erase_guard_passes (abi : MtdAbi) (size : Nat) (instr : EraseInfo)
    (hsize : size < abi.modulus) (h : instr.addr + instr.len ≤ size) :
    ¬ (instr.addr + instr.len) % abi.modulus > size := by
  rw [Nat.mod_eq_of_lt (lt_of_le_of_lt h hsize)]
  omega

theorem memset_memset (mem : Mem) (dst : Int) (c : Byte) (n : Nat) :
    memset (memset mem dst c n) dst c n = memset mem dst c n := by
  funext p
  unfold memset
  split <;> rfl

theorem memset_zero (mem : Mem) (dst : Int) (c : Byte) : memset mem dst c 0 = mem := by
  funext p
  unfold memset
  rw [if_neg (by omega)]

/-- C14: after an accepted erase of `[addr, addr + len)` that starts inside
the window, a read of `len` bytes at `addr` returns `0` and hands back exactly
`len` bytes, all `0xFF`; erasing the same range again returns `0` and leaves
the video memory as the first erase left it. -/
theorem erase_then_read (abi : MtdAbi) (size : Nat) (mem : Mem) (instr : EraseInfo)
    (buf : Buf) (hsize : size < abi.modulus) (h : instr.addr + instr.len ≤ size)
    (hlt : instr.addr < size) :
    (ps3vram_erase abi size mem instr).ret = 0 ∧
    (ps3vram_read abi size (ps3vram_erase abi size mem instr).mem instr.addr instr.len
      buf).ret = 0 ∧
    (ps3vram_read abi size (ps3vram_erase abi size mem instr).mem instr.addr instr.len
      buf).retlen = some instr.len ∧
    (ps3vram_read abi size (ps3vram_erase abi size mem instr).mem instr.addr instr.len
      buf).bytes = List.replicate instr.len 0xFF ∧
    (ps3vram_erase abi size (ps3vram_erase abi size mem instr).mem instr).ret = 0 ∧
    (ps3vram_erase abi size (ps3vram_erase abi size mem instr).mem instr).mem
      = (ps3vram_erase abi size mem instr).mem := by
  have hg := erase_guard_passes abi size instr hsize h
  have hmem : (ps3vram_erase abi size mem instr).mem = memset mem instr.addr 0xFF instr.len := by
    simp [ps3vram_erase, hg]
  have hr := read_inside_window abi size (ps3vram_erase abi size mem instr).mem
    instr.addr instr.len buf hsize hlt
  have hmin : min instr.len (size - instr.addr) = instr.len := by omega
  rw [hmin] at hr
  refine ⟨?_, hr.1, hr.2.1, ?_, ?_, ?_⟩
  · simp [ps3vram_erase, hg]
  · rw [hr.2.2.2.2.1, hmem]
    apply List.ext_getElem
    · simp
    · intro i h1 h2
      have hi : i < instr.len := by simpa using h1
      simp only [List.getElem_map, List.getElem_range, List.getElem_replicate]
      unfold memset
      rw [if_pos (by omega)]
  · simp [ps3vram_erase, hg]
  · rw [hmem]
    simp only [ps3vram_erase, if_neg hg]
    exact memset_memset mem instr.addr 0xFF instr.len

/-- A concrete run: bytes 6000..6143 of a window of 6144 bytes are erased and
read back. -/
theorem erase_then_read_witness :
    (6144 < MtdAbi.u32.modulus ∧ 6000 + 144 ≤ 6144 ∧ 6000 < 6144) ∧
    (ps3vram_read .u32 6144 (ps3vram_erase .u32 6144 (fun _ => 0) ⟨6000, 144, 1⟩).mem
      (6000 : Nat) 144 (fun _ => 0)).bytes = List.replicate 144 0xFF :=
  ⟨⟨by decide, by decide, by decide⟩,
    (erase_then_read .u32 6144 (fun _ => 0) ⟨6000, 144, 1⟩ (fun _ => 0)
      (by decide) (by decide) (by decide)).2.2.2.1⟩

/-- C15: at offset `size` a read or write of length `0` returns `-EINVAL`,
while an erase of length `0` at `addr = size` returns `0`, marks the request
done, calls the callback and changes no byte; at every offset inside the
window a read or write of length `0` returns `0`, stores `0` to `*retlen` and
changes no byte of the video memory nor of the buffer. -/
theorem zero_length_requests (abi : MtdAbi) (size : Nat) (mem : Mem) (buf : Buf)
    (st : Nat) (hsize : size < abi.modulus) (hloff : (size : Int) ≤ LOFF_MAX) :
    (ps3vram_read abi size mem size 0 buf).ret = -EINVAL ∧
    (ps3vram_write abi size mem size 0 buf).ret = -EINVAL ∧
    (ps3vram_erase abi size mem ⟨size, 0, st⟩).ret = 0 ∧
    (ps3vram_erase abi size mem ⟨size, 0, st⟩).instr.state = MTD_ERASE_DONE ∧
    Ev.mtd_erase_callback ⟨size, 0, MTD_ERASE_DONE⟩
      ∈ (ps3vram_erase abi size mem ⟨size, 0, st⟩).trace ∧
    (ps3vram_erase abi size mem ⟨size, 0, st⟩).mem = mem ∧
    (∀ off : Nat, off < size →
      (ps3vram_read abi size mem off 0 buf).ret = 0 ∧
      (ps3vram_read abi size mem off 0 buf).retlen = some 0 ∧
      (ps3vram_read abi size mem off 0 buf).mem = mem ∧
      (ps3vram_read abi size mem off 0 buf).buf = buf ∧
      (ps3vram_write abi size mem off 0 buf).ret = 0 ∧
      (ps3vram_write abi size mem off 0 buf).retlen = some 0 ∧
      (ps3vram_write abi size mem off 0 buf).mem = mem) := by
  have hge := offset_ge_size_of_le abi size size hloff le_rfl
  have hg := erase_guard_passes abi size ⟨size, 0, st⟩ hsize (by simp)
  have hg0 : ¬ size < size % abi.modulus := by simpa using hg
  refine ⟨?_, ?_, ?_, ?_, ?_, ?_, ?_⟩
  · simp [ps3vram_read, hge]
  · simp [ps3vram_write, hge]
  · simp [ps3vram_erase, hg0]
  · simp [ps3vram_erase, hg0]
  · simp [ps3vram_erase, hg0]
  · simp only [ps3vram_erase, if_neg hg]
    exact memset_zero mem _ _
  · intro off hoff
    have hr := read_inside_window abi size mem off 0 buf hsize hoff
    have hw := write_inside_window abi size mem off 0 buf hsize hoff
    simp only [Nat.zero_min] at hr hw
    refine ⟨hr.1, hr.2.1, hr.2.2.2.2.2, ?_, hw.1, hw.2.1, ?_⟩
    · funext i
      exact hr.2.2.2.1 i (Nat.zero_le i)
    · funext p
      exact hw.2.2.2 p (by simp)

/-- A concrete run on a window of 6144 bytes: a read of length `0` at offset
6144 is refused, an erase of length `0` there is accepted. -/
theorem zero_length_requests_witness :
    (6144 < MtdAbi.u32.modulus ∧ ((6144 : Nat) : Int) ≤ LOFF_MAX) ∧
    (ps3vram_read .u32 6144 (fun _ => 0) (6144 : Nat) 0 (fun _ => 0)).ret = -EINVAL ∧
    (ps3vram_erase .u32 6144 (fun _ => 0) ⟨6144, 0, 1⟩).ret = 0 ∧
    (ps3vram_read .u32 6144 (fun _ => 0) (6000 : Nat) 0 (fun _ => 0)).retlen = some 0 :=
  have h := zero_length_requests .u32 6144 (fun _ => 0) (fun _ => 0) 1 (by decide) (by decide)
  ⟨⟨by decide, by decide⟩, h.1, h.2.2.1, (h.2.2.2.2.2.2 6000 (by decide)).2.1⟩

/-- C16: `register_device` returns `0` exactly when `kzalloc`, the grant,
`ioremap` and `add_mtd_device` all succeed; it returns `-EIO` when `kzalloc`,
the grant or `ioremap` fails and `-EAGAIN` when `add_mtd_device` fails; it
never returns `-ENOMEM`. -/
theorem register_device_return_values (abi : MtdAbi) (env : Env) (s : Driver) :
    ((register_device abi env s).ret = 0 ↔ env.allSucceed) ∧
    (env.kzalloc = 0 → (register_device abi env s).ret = - EIO) ∧
    (env.kzalloc ≠ 0 → env.lv1_status ≠ 0 → (register_device abi env s).ret = - EIO) ∧
    (env.kzalloc ≠ 0 → env.lv1_status = 0 → env.ioremap = 0 →
      (register_device abi env s).ret = - EIO) ∧
    (env.kzalloc ≠ 0 → env.lv1_status = 0 → env.ioremap ≠ 0 → env.add_mtd_device ≠ 0 →
      (register_device abi env s).ret = -EAGAIN) ∧
    (register_device abi env s).ret ≠ -ENOMEM := by
  unfold Env.allSucceed
  by_cases hk : env.kzalloc = 0
  · simp [register_device, hk, EIO, ENOMEM]
  · by_cases hg : env.lv1_status = 0
    · by_cases hm : env.ioremap = 0
      · simp [register_device, hk, hg, hm, EIO, ENOMEM]
      · by_cases hr : env.add_mtd_device = 0
        · simp [register_device, hk, hg, hm, hr, ENOMEM]
        · simp [register_device, hk, hg, hm, hr, EAGAIN, ENOMEM]
    · simp [register_device, hk, hg, EIO, ENOMEM]

/-- A concrete run: `kzalloc` answers `NULL` and the value returned is `-EIO`,
not `-ENOMEM`. -/
theorem register_device_return_values_witness :
    (0 : Nat) = 0 ∧
    (register_device .u32 ⟨0, 0, 0, 0, 0, 0⟩ Driver.initial).ret = - EIO ∧
    (register_device .u32 ⟨0, 0, 0, 0, 0, 0⟩ Driver.initial).ret ≠ -ENOMEM :=
  have h := register_device_return_values .u32 ⟨0, 0, 0, 0, 0, 0⟩ Driver.initial
  ⟨rfl, h.2.1 rfl, h.2.2.2.2.2⟩

end Ps3vram
